import Mathlib

/-!
Verification development for `s2t-gcp.py`, a command-line script that converts
a text or PDF file to MP3 audio via a remote text-to-speech service, or lists
the service's available voices.

The script is shallowly embedded: the external world (file system, PDF text
extractor, remote service client) is a record of oracles, and a run of the
script is a pure function from the world and the arguments to a trace of
observable effects together with the process exit code.  Every definition
mirrors the corresponding lines of `s2t-gcp.py`.
-/

namespace S2T

/-- Model of `os.path.splitext`'s separator scan (POSIX): the basename is the
suffix of the path after the last `/`. -/
def afterLastSep (l : List Char) : List Char :=
  l.foldl (fun acc c => if c = '/' then [] else acc ++ [c]) []

/-- Index of the last occurrence of `.` in a character list, if any. -/
def lastDotIdxAux : List Char → Nat → Option Nat → Option Nat
  | [], _, best => best
  | c :: rest, i, best =>
      lastDotIdxAux rest (i + 1) (if c = '.' then some i else best)

/-- Index of the last `.` in a list of characters. -/
def lastDotIdx (l : List Char) : Option Nat :=
  lastDotIdxAux l 0 none

/-- Extension of a basename, as `posixpath.splitext` computes it: the suffix
from the last dot, provided some character before that dot is not itself a dot
(so leading-dot names such as `.txt` have no extension). -/
def extOfBasename (b : List Char) : String :=
  match lastDotIdx b with
  | none => ""
  | some i => if (b.take i).any (fun c => !(c = '.')) then ⟨b.drop i⟩ else ""

/-- Model of `os.path.splitext(p)[1]` (POSIX rules), used at line 49 of the
script to dispatch on the input file's extension. -/
def splitextExt (p : String) : String :=
  extOfBasename (afterLastSep p.data)

/-- ASCII lowercasing of a string, modelling `str.lower()` as applied to the
extension (extensions of interest are ASCII). -/
def lowerStr (s : String) : String :=
  ⟨s.data.map Char.toLower⟩

/-- ASCII whitespace in the sense of Python's `str.strip()` (the inputs of
interest are ASCII; Python additionally strips some Unicode spaces). -/
def pyIsSpace (c : Char) : Bool :=
  c = ' ' || c = '\t' || c = '\n' || c = '\r' || c = '\x0b' || c = '\x0c'

/-- `not text.strip()` at line 74: the string is empty or whitespace-only. -/
def stripIsEmpty (s : String) : Bool :=
  s.data.all pyIsSpace

/-- The SSML voice gender enumeration of the remote service's API. -/
inductive SsmlVoiceGender where
  | SSML_VOICE_GENDER_UNSPECIFIED
  | MALE
  | FEMALE
  | NEUTRAL
deriving DecidableEq, Repr

/-- `texttospeech.SsmlVoiceGender(g).name`: the enum member's printable name. -/
def SsmlVoiceGender.enumName : SsmlVoiceGender → String
  | .SSML_VOICE_GENDER_UNSPECIFIED => "SSML_VOICE_GENDER_UNSPECIFIED"
  | .MALE => "MALE"
  | .FEMALE => "FEMALE"
  | .NEUTRAL => "NEUTRAL"

/-- A voice descriptor as returned by the service's `list_voices` query. -/
structure Voice where
  name : String
  language_codes : List String
  ssml_gender : SsmlVoiceGender
  natural_sample_rate_hertz : Nat
deriving DecidableEq, Repr

/-- `texttospeech.SynthesisInput(text=...)` (line 85). -/
structure SynthesisInput where
  text : String
deriving DecidableEq, Repr

/-- `texttospeech.VoiceSelectionParams(language_code=..., name=...)`
(lines 89-92); `ssml_gender` is an optional field the script leaves unset. -/
structure VoiceSelectionParams where
  language_code : String
  name : String
  ssml_gender : Option SsmlVoiceGender
deriving DecidableEq, Repr

/-- The audio encodings of the remote API relevant here. -/
inductive AudioEncoding where
  | MP3
  | LINEAR16
  | OGG_OPUS
deriving DecidableEq, Repr

/-- `texttospeech.AudioConfig(audio_encoding=...)` (lines 95-97). -/
structure AudioConfig where
  audio_encoding : AudioEncoding
deriving DecidableEq, Repr

/-- Failure modes of opening/reading an input file. -/
inductive ReadErr where
  | notFound
  | ioError (msg : String)
deriving DecidableEq, Repr

/-- Observable effects of one run of the script. -/
inductive Effect where
  /-- A line printed to standard output. -/
  | printed (line : String)
  /-- `parser.print_help()` output. -/
  | printedHelp
  /-- An input file opened for content reading (`open(input_file, ...)`). -/
  | openedForRead (path : String)
  /-- Successful construction of `texttospeech.TextToSpeechClient()`. -/
  | clientConstructed
  /-- The `client.list_voices(language_code=...)` network call. -/
  | listQuery (language_code : String)
  /-- The `client.synthesize_speech(input=..., voice=..., audio_config=...)`
  network call. -/
  | synthCall (input : SynthesisInput) (voice : VoiceSelectionParams)
      (config : AudioConfig)
  /-- The output file opened in mode `"wb"` (creating or truncating it). -/
  | openedOutput (path : String)
  /-- `response.audio_content` written byte-for-byte to the output file. -/
  | wroteBytes (path : String) (bytes : List Nat)
deriving DecidableEq, Repr

/-- Result of a run: the trace of effects and the process exit status. -/
structure RunResult where
  effects : List Effect
  exitCode : Nat
deriving DecidableEq, Repr

/-- The external world: file system contents, PDF extraction results, and the
remote service, all as oracles.  `readTxt` models `open(p, encoding=utf-8)`
followed by `f.read()`; `readPdf` models `PyPDF2.PdfReader` giving the
`extract_text()` result of each page in page order. -/
structure World where
  readTxt : String → Except ReadErr String
  readPdf : String → Except ReadErr (List String)
  clientOk : Bool
  clientErrMsg : String
  listVoicesResp : String → Except String (List Voice)
  synthesize : SynthesisInput → VoiceSelectionParams → AudioConfig →
      Except String (List Nat)
  writeOk : String → Bool
  writeErrMsg : String

/-- The PDF page loop of lines 60-63: `text += page_text + chr(10)` for each
page whose extracted text is non-empty (Python truthiness of a string). -/
def pdfExtractLoop : List String → String → String
  | [], acc => acc
  | p :: rest, acc =>
      pdfExtractLoop rest (if p = "" then acc else acc ++ p ++ "\n")

/-- Lines 74-115 of the script: everything after text extraction.  `es` is the
trace accumulated by the extraction phase, `text` the extracted text. -/
def afterExtraction (w : World) (output_file voice_name language_code : String)
    (es : List Effect) (text : String) : RunResult :=
  if stripIsEmpty text then
    ⟨es ++ [.printed "Error: No text extracted from the input file."], 1⟩
  else if w.clientOk then
    let synthesis_input : SynthesisInput := ⟨text⟩
    let voice : VoiceSelectionParams :=
      { language_code := language_code, name := voice_name, ssml_gender := none }
    let audio_config : AudioConfig := ⟨.MP3⟩
    match w.synthesize synthesis_input voice audio_config with
    | .error m =>
        ⟨es ++ [.clientConstructed, .synthCall synthesis_input voice audio_config,
          .printed ("Error during synthesis: " ++ m)], 1⟩
    | .ok bytes =>
        if w.writeOk output_file then
          ⟨es ++ [.clientConstructed,
            .synthCall synthesis_input voice audio_config,
            .openedOutput output_file, .wroteBytes output_file bytes,
            .printed ("Audio content written to file \x27" ++ output_file ++ "\x27")], 0⟩
        else
          ⟨es ++ [.clientConstructed,
            .synthCall synthesis_input voice audio_config,
            .printed ("Error writing output file: " ++ w.writeErrMsg)], 1⟩
  else
    ⟨es ++ [.printed ("Error creating client: " ++ w.clientErrMsg)], 1⟩

/-- The `.txt` branch (lines 54-56): open and read the whole file as UTF-8. -/
def txtBranch (w : World) (input_file output_file voice_name language_code : String) :
    RunResult :=
  match w.readTxt input_file with
  | .error .notFound =>
      ⟨[.printed ("Error: Input file \x27" ++ input_file ++ "\x27 not found.")], 1⟩
  | .error (.ioError m) =>
      ⟨[.openedForRead input_file, .printed ("Error reading input file: " ++ m)], 1⟩
  | .ok text =>
      afterExtraction w output_file voice_name language_code
        [.openedForRead input_file] text

/-- The `.pdf` branch (lines 57-63): open the file, iterate pages in order and
accumulate each page's non-empty extracted text followed by a newline. -/
def pdfBranch (w : World) (input_file output_file voice_name language_code : String) :
    RunResult :=
  match w.readPdf input_file with
  | .error .notFound =>
      ⟨[.printed ("Error: Input file \x27" ++ input_file ++ "\x27 not found.")], 1⟩
  | .error (.ioError m) =>
      ⟨[.openedForRead input_file, .printed ("Error reading input file: " ++ m)], 1⟩
  | .ok pages =>
      afterExtraction w output_file voice_name language_code
        [.openedForRead input_file] (pdfExtractLoop pages "")

/-- `text_to_speech` (lines 47-115): dispatch on the lowercased extension of
the input path, extract text, then synthesize and write the audio. -/
def text_to_speech (w : World) (input_file output_file voice_name language_code : String) :
    RunResult :=
  let file_ext := lowerStr (splitextExt input_file)
  if file_ext = ".txt" then
    txtBranch w input_file output_file voice_name language_code
  else if file_ext = ".pdf" then
    pdfBranch w input_file output_file voice_name language_code
  else
    ⟨[.printed ("Error: Unsupported file type \x27" ++ file_ext ++
      "\x27. Only .txt and .pdf are supported.")], 1⟩

/-- The five lines printed for one voice descriptor (lines 38-42). -/
def voiceRecordLines (v : Voice) : List Effect :=
  [.printed ("Name: " ++ v.name),
   .printed ("Languages: " ++ String.intercalate ", " v.language_codes),
   .printed ("Gender: " ++ v.ssml_gender.enumName),
   .printed ("Natural Sample Rate Hertz: " ++ toString v.natural_sample_rate_hertz),
   .printed "---"]

/-- The `for voice in response.voices` loop of lines 37-42. -/
def printVoicesLoop : List Voice → List Effect
  | [] => []
  | v :: rest => voiceRecordLines v ++ printVoicesLoop rest

/-- `list_voices` (lines 29-45): construct the client, query the voices for
the given language code, and print one record per voice in response order. -/
def list_voices (w : World) (language_code : String) : RunResult :=
  if w.clientOk then
    match w.listVoicesResp language_code with
    | .error m =>
        ⟨[.clientConstructed, .listQuery language_code,
          .printed ("Error listing voices: " ++ m)], 1⟩
    | .ok voices =>
        ⟨[.clientConstructed, .listQuery language_code] ++ printVoicesLoop voices, 0⟩
  else
    ⟨[.printed ("Error creating client: " ++ w.clientErrMsg)], 1⟩

/-- The parsed command line (lines 118-125).  `argparse` with `nargs` set to
optional stores a missing positional as `None`, modelled by `none`; `--voice`
and `--language` always carry a value because they have defaults. -/
structure Args where
  input_file : Option String
  output_file : Option String
  list_voices : Bool
  voice : String
  language : String
deriving DecidableEq, Repr

/-- Python truthiness of an optional string (`not args.input_file` is true
when the value is `None` or the empty string). -/
def truthy : Option String → Bool
  | none => false
  | some s => !(s = "")

/-- The `__main__` dispatch (lines 127-133). -/
def mainDispatch (w : World) (args : Args) : RunResult :=
  if args.list_voices then
    list_voices w args.language
  else if !truthy args.input_file || !truthy args.output_file then
    ⟨[.printedHelp], 1⟩
  else
    text_to_speech w (args.input_file.getD "") (args.output_file.getD "")
      args.voice args.language

/-- The full synthesis requests occurring in a run, in order. -/
def synthRequests (r : RunResult) :
    List (SynthesisInput × VoiceSelectionParams × AudioConfig) :=
  r.effects.filterMap fun e =>
    match e with
    | .synthCall i v c => some (i, v, c)
    | _ => none

/-- The output-file writes occurring in a run, in order. -/
def writes (r : RunResult) : List (String × List Nat) :=
  r.effects.filterMap fun e =>
    match e with
    | .wroteBytes p bs => some (p, bs)
    | _ => none

/-- Paths at which the run opened, created, truncated or wrote the output. -/
def outputTouches (r : RunResult) : List String :=
  r.effects.filterMap fun e =>
    match e with
    | .openedOutput p => some p
    | .wroteBytes p _ => some p
    | _ => none

/-- Paths the run opened for content reading. -/
def opens (r : RunResult) : List String :=
  r.effects.filterMap fun e =>
    match e with
    | .openedForRead p => some p
    | _ => none

/-- Network operations (client construction and remote calls) of a run. -/
def networkEffects (r : RunResult) : List Effect :=
  r.effects.filter fun e =>
    match e with
    | .clientConstructed => true
    | .listQuery _ => true
    | .synthCall _ _ _ => true
    | _ => false

/-- The text the extraction phase of `text_to_speech` produces when reading
succeeds, and `none` when the run fails before or during reading. -/
def extractedOk (w : World) (f : String) : Option String :=
  let file_ext := lowerStr (splitextExt f)
  if file_ext = ".txt" then
    match w.readTxt f with
    | .ok s => some s
    | .error _ => none
  else if file_ext = ".pdf" then
    match w.readPdf f with
    | .ok ps => some (pdfExtractLoop ps "")
    | .error _ => none
  else none

/-- The join described by the spec's words: "the page texts joined by single
newline characters, in page order", with a separator only between pages. -/
def specJoinNL : List String → String
  | [] => ""
  | [p] => p
  | p :: rest => p ++ "\n" ++ specJoinNL rest

/-- A sample voice descriptor for concrete runs. -/
def sampleVoice : Voice :=
  ⟨"en-US-Wavenet-D", ["en-US", "en-CA"], .FEMALE, 24000⟩

/-- A world in which every operation succeeds: `in.txt` and `doc.TXT` hold
the text `hello`, `ws.txt` holds only whitespace, `doc.pdf` and `doc.Pdf`
have two pages extracting `a` and `b`, `blank.pdf` has two pages with no
extractable text, the service is reachable and synthesis returns a one-byte
payload recording the request text's length. -/
def okWorld : World where
  readTxt := fun p =>
    if p = "in.txt" || p = "doc.TXT" then .ok "hello"
    else if p = "ws.txt" then .ok " \n "
    else .error .notFound
  readPdf := fun p =>
    if p = "doc.pdf" || p = "doc.Pdf" then .ok ["a", "b"]
    else if p = "blank.pdf" then .ok ["", ""]
    else .error .notFound
  clientOk := true
  clientErrMsg := ""
  listVoicesResp := fun _ => .ok [sampleVoice]
  synthesize := fun i _ _ => .ok [i.text.length]
  writeOk := fun _ => true
  writeErrMsg := ""

/-- A world in which client construction fails (for example, because no
credentials are available). -/
def noClientWorld : World :=
  { okWorld with clientOk := false, clientErrMsg := "no credentials" }

/-- A world in which the client is constructed but every synthesis call
fails. -/
def synthFailWorld : World :=
  { okWorld with synthesize := fun _ _ _ => .error "quota exceeded" }

/-- A command line carrying both positionals, where the first positional was
supplied but is the empty string. -/
def emptyInputArgs : Args :=
  ⟨some "", some "out.mp3", false, "en-US-Wavenet-D", "en-US"⟩

/-- A command line invoking listing mode with no positionals. -/
def listArgs : Args :=
  ⟨none, none, true, "en-US-Wavenet-D", "en-US"⟩

/-- A command line missing the second positional. -/
def onePositionalArgs : Args :=
  ⟨some "in.txt", none, false, "en-US-Wavenet-D", "en-US"⟩

/-- A fully specified synthesis command line. -/
def synthArgs : Args :=
  ⟨some "in.txt", some "out.mp3", false, "en-US-Wavenet-D", "en-US"⟩

/-- The synthesis request issued in `okWorld` for the file `in.txt` with the
default voice and language. -/
def helloRequest : SynthesisInput × VoiceSelectionParams × AudioConfig :=
  (⟨"hello"⟩, ⟨"en-US", "en-US-Wavenet-D", none⟩, ⟨.MP3⟩)

/-- The synthesis request issued in `okWorld` for the file `doc.pdf` (pages
`a` and `b`) with the default voice and language. -/
def abRequest : SynthesisInput × VoiceSelectionParams × AudioConfig :=
  (⟨"a\nb\n"⟩, ⟨"en-US", "en-US-Wavenet-D", none⟩, ⟨.MP3⟩)

/-! Helper lemmas. -/

/-- The page loop with a non-empty page list of non-empty pages produces the
accumulator followed by the newline-join of the pages and one trailing
newline. -/
theorem pdfExtractLoop_join (pages : List String) :
    ∀ acc : String, pages ≠ [] → (∀ p ∈ pages, p ≠ "") →
      pdfExtractLoop pages acc = acc ++ (specJoinNL pages ++ "\n") := by
  induction pages with
  | nil => intro acc h _; exact absurd rfl h
  | cons p rest ih =>
    intro acc _ hall
    have hp : ¬(p = "") := hall p (List.mem_cons_self p rest)
    cases rest with
    | nil => simp [pdfExtractLoop, hp, specJoinNL, String.append_assoc]
    | cons q qs =>
      have hrec := ih (acc ++ p ++ "\n") (by simp)
        (fun x hx => hall x (List.mem_cons_of_mem p hx))
      simp only [pdfExtractLoop, hp, if_false, ite_false] at hrec ⊢
      rw [hrec]
      simp [specJoinNL, String.append_assoc]

/-- Any synthesis request in the post-extraction phase is the one constructed
at lines 85-97, and its presence implies the text was not whitespace-only and
the client was constructed. -/
theorem mem_synthRequests_afterExtraction (w : World) (f o v l t : String)
    (req : SynthesisInput × VoiceSelectionParams × AudioConfig)
    (hreq : req ∈ synthRequests
      (afterExtraction w o v l [.openedForRead f] t)) :
    req = (⟨t⟩, ⟨l, v, none⟩, ⟨.MP3⟩) ∧ stripIsEmpty t = false ∧
      w.clientOk = true := by
  unfold afterExtraction at hreq
  cases h1 : stripIsEmpty t with
  | true => simp [h1, synthRequests] at hreq
  | false =>
    cases h2 : w.clientOk with
    | false => simp [h1, h2, synthRequests] at hreq
    | true =>
      cases hs : w.synthesize ⟨t⟩ ⟨l, v, none⟩ ⟨.MP3⟩ with
      | error m =>
        simp [h1, h2, hs, synthRequests] at hreq
        exact ⟨by simp [hreq], rfl, rfl⟩
      | ok bytes =>
        cases h3 : w.writeOk o with
        | true =>
          simp [h1, h2, hs, h3, synthRequests] at hreq
          exact ⟨by simp [hreq], rfl, rfl⟩
        | false =>
          simp [h1, h2, hs, h3, synthRequests] at hreq
          exact ⟨by simp [hreq], rfl, rfl⟩

/-- The printing loop of `list_voices` emits exactly the records of the
voices, flattened in order. -/
theorem printVoicesLoop_eq (vs : List Voice) :
    printVoicesLoop vs = (vs.map voiceRecordLines).flatten := by
  induction vs with
  | nil => rfl
  | cons v rest ih => simp [printVoicesLoop, ih]

/-! Claim theorems. -/

/-- C5: for every input path whose (lowercased splitext) extension is neither
`.txt` nor `.pdf`, the run fails with the "unsupported file type" error and
exit status 1, opens no file for content reading, touches no output file and
performs no network operation. -/
theorem C5_unsupported_ext (w : World) (f o v l : String)
    (h1 : lowerStr (splitextExt f) ≠ ".txt")
    (h2 : lowerStr (splitextExt f) ≠ ".pdf") :
    (text_to_speech w f o v l).exitCode = 1 ∧
    Effect.printed ("Error: Unsupported file type \x27" ++
        lowerStr (splitextExt f) ++ "\x27. Only .txt and .pdf are supported.")
      ∈ (text_to_speech w f o v l).effects ∧
    opens (text_to_speech w f o v l) = [] ∧
    outputTouches (text_to_speech w f o v l) = [] ∧
    networkEffects (text_to_speech w f o v l) = [] := by
  simp [text_to_speech, h1, h2, opens, outputTouches, networkEffects]

/-- Witness for C5 at the concrete path `notes.md`. -/
theorem C5_unsupported_ext_witness :
    (text_to_speech okWorld "notes.md" "out.mp3" "en-US-Wavenet-D" "en-US").exitCode = 1 ∧
    Effect.printed ("Error: Unsupported file type \x27" ++
        lowerStr (splitextExt "notes.md") ++ "\x27. Only .txt and .pdf are supported.")
      ∈ (text_to_speech okWorld "notes.md" "out.mp3" "en-US-Wavenet-D" "en-US").effects ∧
    opens (text_to_speech okWorld "notes.md" "out.mp3" "en-US-Wavenet-D" "en-US") = [] ∧
    outputTouches (text_to_speech okWorld "notes.md" "out.mp3" "en-US-Wavenet-D" "en-US") = [] ∧
    networkEffects (text_to_speech okWorld "notes.md" "out.mp3" "en-US-Wavenet-D" "en-US") = [] :=
  C5_unsupported_ext okWorld "notes.md" "out.mp3" "en-US-Wavenet-D" "en-US"
    (by decide) (by decide)

/-- C9: extension matching is case-insensitive: a path whose splitext
extension lowercases to `.txt` is processed by the text branch, and one whose
extension lowercases to `.pdf` by the PDF branch. -/
theorem C9_case_insensitive_ext (w : World) (f o v l : String) :
    (lowerStr (splitextExt f) = ".txt" →
      text_to_speech w f o v l = txtBranch w f o v l) ∧
    (lowerStr (splitextExt f) = ".pdf" →
      text_to_speech w f o v l = pdfBranch w f o v l) := by
  constructor <;> intro h <;> simp [text_to_speech, h]

/-- Witness for C9 at the uppercase-extension paths `doc.TXT` and `doc.Pdf`. -/
theorem C9_case_insensitive_ext_witness :
    text_to_speech okWorld "doc.TXT" "out.mp3" "en-US-Wavenet-D" "en-US" =
      txtBranch okWorld "doc.TXT" "out.mp3" "en-US-Wavenet-D" "en-US" ∧
    text_to_speech okWorld "doc.Pdf" "out.mp3" "en-US-Wavenet-D" "en-US" =
      pdfBranch okWorld "doc.Pdf" "out.mp3" "en-US-Wavenet-D" "en-US" :=
  ⟨(C9_case_insensitive_ext okWorld "doc.TXT" "out.mp3" "en-US-Wavenet-D" "en-US").1
      (by decide),
   (C9_case_insensitive_ext okWorld "doc.Pdf" "out.mp3" "en-US-Wavenet-D" "en-US").2
      (by decide)⟩

/-- C10: format dispatch uses the splitext dot-suffix; a path whose splitext
extension is empty — in particular a path with no dot-suffix such as
`README`, or a leading-dot basename such as `.txt` or `/tmp/.pdf` — is
rejected as unsupported without being opened. -/
theorem C10_splitext_dispatch :
    (∀ (w : World) (f o v l : String), splitextExt f = "" →
      (text_to_speech w f o v l).exitCode = 1 ∧
      Effect.printed
          "Error: Unsupported file type \x27\x27. Only .txt and .pdf are supported."
        ∈ (text_to_speech w f o v l).effects ∧
      opens (text_to_speech w f o v l) = []) ∧
    splitextExt "README" = "" ∧ splitextExt ".txt" = "" ∧
    splitextExt "/tmp/.pdf" = "" := by
  refine ⟨?_, by decide, by decide, by decide⟩
  intro w f o v l h
  have hl : lowerStr (splitextExt f) = "" := by rw [h]; rfl
  simp [text_to_speech, hl, opens]

/-- C3: whenever extraction succeeds but yields empty or whitespace-only text
(including a PDF with no extractable text on any page), the run exits with
status 1 after printing the "no text extracted" error, with no client
construction, no network call, and no output-file activity. -/
theorem C3_empty_text_no_network (w : World) (f o v l t : String)
    (hext : extractedOk w f = some t) (hws : stripIsEmpty t = true) :
    (text_to_speech w f o v l).exitCode = 1 ∧
    Effect.printed "Error: No text extracted from the input file."
      ∈ (text_to_speech w f o v l).effects ∧
    networkEffects (text_to_speech w f o v l) = [] ∧
    outputTouches (text_to_speech w f o v l) = [] := by
  by_cases h1 : lowerStr (splitextExt f) = ".txt"
  · cases hr : w.readTxt f with
    | error e => simp [extractedOk, h1, hr] at hext
    | ok s =>
      simp [extractedOk, h1, hr] at hext
      subst hext
      simp [text_to_speech, h1, txtBranch, hr, afterExtraction, hws,
        networkEffects, outputTouches]
  · by_cases h2 : lowerStr (splitextExt f) = ".pdf"
    · cases hr : w.readPdf f with
      | error e => simp [extractedOk, h1, h2, hr] at hext
      | ok ps =>
        simp [extractedOk, h1, h2, hr] at hext
        subst hext
        simp [text_to_speech, h1, h2, pdfBranch, hr, afterExtraction, hws,
          networkEffects, outputTouches]
    · simp [extractedOk, h1, h2] at hext

/-- Witness for C3 at `blank.pdf`, whose two pages extract no text. -/
theorem C3_empty_text_no_network_witness :
    (text_to_speech okWorld "blank.pdf" "out.mp3" "en-US-Wavenet-D" "en-US").exitCode = 1 ∧
    Effect.printed "Error: No text extracted from the input file."
      ∈ (text_to_speech okWorld "blank.pdf" "out.mp3" "en-US-Wavenet-D" "en-US").effects ∧
    networkEffects (text_to_speech okWorld "blank.pdf" "out.mp3" "en-US-Wavenet-D" "en-US") = [] ∧
    outputTouches (text_to_speech okWorld "blank.pdf" "out.mp3" "en-US-Wavenet-D" "en-US") = [] :=
  C3_empty_text_no_network okWorld "blank.pdf" "out.mp3" "en-US-Wavenet-D" "en-US" ""
    (by decide) (by decide)

/-- C6: every synthesis request the synthesizer constructs specifies MP3
audio encoding and carries the requested voice name and language code, with
the voice gender field left unspecified. -/
theorem C6_request_fields (w : World) (f o v l : String)
    (req : SynthesisInput × VoiceSelectionParams × AudioConfig)
    (hreq : req ∈ synthRequests (text_to_speech w f o v l)) :
    req.2.2.audio_encoding = AudioEncoding.MP3 ∧ req.2.1.name = v ∧
    req.2.1.language_code = l ∧ req.2.1.ssml_gender = none := by
  by_cases h1 : lowerStr (splitextExt f) = ".txt"
  · simp only [text_to_speech, h1, if_true] at hreq
    cases hr : w.readTxt f with
    | error e => cases e <;> simp [txtBranch, hr, synthRequests] at hreq
    | ok s =>
      simp only [txtBranch, hr] at hreq
      obtain ⟨he, -, -⟩ := mem_synthRequests_afterExtraction w f o v l s req hreq
      rw [he]
      exact ⟨rfl, rfl, rfl, rfl⟩
  · by_cases h2 : lowerStr (splitextExt f) = ".pdf"
    · simp only [text_to_speech, h1, h2, if_false, if_true] at hreq
      cases hr : w.readPdf f with
      | error e => cases e <;> simp [pdfBranch, hr, synthRequests] at hreq
      | ok ps =>
        simp only [pdfBranch, hr] at hreq
        obtain ⟨he, -, -⟩ :=
          mem_synthRequests_afterExtraction w f o v l (pdfExtractLoop ps "") req hreq
        rw [he]
        exact ⟨rfl, rfl, rfl, rfl⟩
    · simp [text_to_speech, h1, h2, synthRequests] at hreq

/-- Witness for C6 at the request issued for `in.txt`. -/
theorem C6_request_fields_witness :
    helloRequest.2.2.audio_encoding = AudioEncoding.MP3 ∧
    helloRequest.2.1.name = "en-US-Wavenet-D" ∧
    helloRequest.2.1.language_code = "en-US" ∧
    helloRequest.2.1.ssml_gender = none :=
  C6_request_fields okWorld "in.txt" "out.mp3" "en-US-Wavenet-D" "en-US"
    helloRequest (by decide)

/-- Failure of client construction or of every synthesis call makes the
post-extraction phase exit with status 1 without touching the output file. -/
theorem afterExtraction_fail (w : World) (f o v l t : String)
    (hfail : w.clientOk = false ∨
      ∀ i vo c, ∃ m, w.synthesize i vo c = Except.error m) :
    (afterExtraction w o v l [.openedForRead f] t).exitCode = 1 ∧
    outputTouches (afterExtraction w o v l [.openedForRead f] t) = [] := by
  unfold afterExtraction
  cases h1 : stripIsEmpty t with
  | true => simp [outputTouches]
  | false =>
    rcases hfail with hc | hs
    · simp [hc, outputTouches]
    · cases h2 : w.clientOk with
      | false => simp [h2, outputTouches]
      | true =>
        obtain ⟨m, hm⟩ := hs ⟨t⟩ ⟨l, v, none⟩ ⟨.MP3⟩
        simp [h2, hm, outputTouches]

/-- C8: if client construction fails, or every synthesis call fails, the run
exits with status 1 and the output file is never opened, created, truncated
or written. -/
theorem C8_failure_no_output (w : World) (f o v l : String)
    (hfail : w.clientOk = false ∨
      ∀ i vo c, ∃ m, w.synthesize i vo c = Except.error m) :
    (text_to_speech w f o v l).exitCode = 1 ∧
    outputTouches (text_to_speech w f o v l) = [] := by
  by_cases h1 : lowerStr (splitextExt f) = ".txt"
  · simp only [text_to_speech, h1, if_true]
    cases hr : w.readTxt f with
    | error e => cases e <;> simp [txtBranch, hr, outputTouches]
    | ok s =>
      simp only [txtBranch, hr]
      exact afterExtraction_fail w f o v l s hfail
  · by_cases h2 : lowerStr (splitextExt f) = ".pdf"
    · simp only [text_to_speech, h1, h2, if_false, if_true]
      cases hr : w.readPdf f with
      | error e => cases e <;> simp [pdfBranch, hr, outputTouches]
      | ok ps =>
        simp only [pdfBranch, hr]
        exact afterExtraction_fail w f o v l (pdfExtractLoop ps "") hfail
    · simp [text_to_speech, h1, h2, outputTouches]

/-- Witness for C8 in a world whose client construction fails. -/
theorem C8_failure_no_output_witness :
    (text_to_speech noClientWorld "in.txt" "out.mp3" "en-US-Wavenet-D" "en-US").exitCode = 1 ∧
    outputTouches (text_to_speech noClientWorld "in.txt" "out.mp3" "en-US-Wavenet-D" "en-US") = [] :=
  C8_failure_no_output noClientWorld "in.txt" "out.mp3" "en-US-Wavenet-D" "en-US"
    (Or.inl rfl)

/-- Witness for C10 at the concrete path `.txt`. -/
theorem C10_splitext_dispatch_witness :
    (text_to_speech okWorld ".txt" "out.mp3" "en-US-Wavenet-D" "en-US").exitCode = 1 ∧
    Effect.printed
        "Error: Unsupported file type \x27\x27. Only .txt and .pdf are supported."
      ∈ (text_to_speech okWorld ".txt" "out.mp3" "en-US-Wavenet-D" "en-US").effects ∧
    opens (text_to_speech okWorld ".txt" "out.mp3" "en-US-Wavenet-D" "en-US") = [] :=
  C10_splitext_dispatch.1 okWorld ".txt" "out.mp3" "en-US-Wavenet-D" "en-US" (by decide)

/-- C1 fails as stated: for a two-page PDF extracting `a` and `b`, the text
passed to synthesis is `a`, newline, `b`, newline — not the pure newline-join
`a`, newline, `b`: the loop appends a newline after every non-empty page,
including the last. -/
theorem C1_counterexample :
    okWorld.readPdf "doc.pdf" = Except.ok ["a", "b"] ∧
    synthRequests (text_to_speech okWorld "doc.pdf" "out.mp3" "en-US-Wavenet-D" "en-US")
      = [abRequest] ∧
    specJoinNL ["a", "b"] = "a\nb" ∧
    abRequest.1.text ≠ "a\nb" := by
  exact ⟨rfl, by decide, by decide, by decide⟩

/-- C1 (amended): for a PDF whose pages each yield non-empty text, the text
passed to synthesis equals the page texts joined by single newline characters
in page order, followed by one trailing newline (each non-empty page
contributes its text plus a newline; pages with no extractable text
contribute nothing). -/
theorem C1_pdf_text_join (w : World) (f o v l : String) (pages : List String)
    (req : SynthesisInput × VoiceSelectionParams × AudioConfig)
    (hext : lowerStr (splitextExt f) = ".pdf")
    (hread : w.readPdf f = Except.ok pages)
    (hall : ∀ p ∈ pages, p ≠ "")
    (hreq : req ∈ synthRequests (text_to_speech w f o v l)) :
    req.1.text = specJoinNL pages ++ "\n" := by
  by_cases h1 : lowerStr (splitextExt f) = ".txt"
  · rw [hext] at h1; exact absurd h1 (by decide)
  · simp only [text_to_speech, h1, hext, if_false, if_true] at hreq
    simp only [pdfBranch, hread] at hreq
    obtain ⟨he, hws, -⟩ :=
      mem_synthRequests_afterExtraction w f o v l (pdfExtractLoop pages "") req hreq
    have hne : pages ≠ [] := by
      intro hp
      subst hp
      simp [pdfExtractLoop, stripIsEmpty] at hws
    rw [he]
    show pdfExtractLoop pages "" = specJoinNL pages ++ "\n"
    rw [pdfExtractLoop_join pages "" hne hall]
    simp

/-- Witness for the amended C1 at `doc.pdf` with pages `a` and `b`. -/
theorem C1_pdf_text_join_witness :
    abRequest.1.text = specJoinNL ["a", "b"] ++ "\n" :=
  C1_pdf_text_join okWorld "doc.pdf" "out.mp3" "en-US-Wavenet-D" "en-US"
    ["a", "b"] abRequest (by decide) rfl (by decide) (by decide)

/-- C2: for a `.txt` input whose file decodes to non-empty, non-whitespace
content, the run issues exactly one synthesis call whose text is the decoded
content verbatim, writes the returned bytes byte-for-byte to the output path
(opened in binary write mode, which overwrites any existing file), and exits
with status 0. -/
theorem C2_txt_synthesis (w : World) (f o v l content : String) (bytes : List Nat)
    (hext : lowerStr (splitextExt f) = ".txt")
    (hread : w.readTxt f = Except.ok content)
    (hne : stripIsEmpty content = false)
    (hclient : w.clientOk = true)
    (hsynth : w.synthesize ⟨content⟩ ⟨l, v, none⟩ ⟨.MP3⟩ = Except.ok bytes)
    (hw : w.writeOk o = true) :
    synthRequests (text_to_speech w f o v l) = [(⟨content⟩, ⟨l, v, none⟩, ⟨.MP3⟩)] ∧
    writes (text_to_speech w f o v l) = [(o, bytes)] ∧
    (text_to_speech w f o v l).exitCode = 0 := by
  refine ⟨?_, ?_, ?_⟩ <;>
    simp [text_to_speech, hext, txtBranch, hread, afterExtraction, hne,
      hclient, hsynth, hw, synthRequests, writes]

/-- Witness for C2 at `in.txt` holding `hello`. -/
theorem C2_txt_synthesis_witness :
    synthRequests (text_to_speech okWorld "in.txt" "out.mp3" "en-US-Wavenet-D" "en-US")
      = [(⟨"hello"⟩, ⟨"en-US", "en-US-Wavenet-D", none⟩, ⟨.MP3⟩)] ∧
    writes (text_to_speech okWorld "in.txt" "out.mp3" "en-US-Wavenet-D" "en-US")
      = [("out.mp3", [5])] ∧
    (text_to_speech okWorld "in.txt" "out.mp3" "en-US-Wavenet-D" "en-US").exitCode = 0 :=
  C2_txt_synthesis okWorld "in.txt" "out.mp3" "en-US-Wavenet-D" "en-US" "hello" [5]
    (by decide) rfl (by decide) rfl rfl rfl

/-- C4 fails as stated: with no listing flag and both positionals supplied,
the first being the empty string, the program prints usage help and exits
with status 1 instead of running the Synthesizer. -/
theorem C4_counterexample :
    emptyInputArgs.list_voices = false ∧
    emptyInputArgs.input_file ≠ none ∧
    emptyInputArgs.output_file ≠ none ∧
    mainDispatch okWorld emptyInputArgs = ⟨[Effect.printedHelp], 1⟩ ∧
    synthRequests (mainDispatch okWorld emptyInputArgs) = [] := by
  refine ⟨rfl, by simp [emptyInputArgs], by simp [emptyInputArgs], by decide, by decide⟩

/-- C4 (amended): if the listing flag is present the Voice Lister runs with
the `--language` value and the positionals are ignored; otherwise, if either
positional is missing or empty, usage help is printed and the process exits
with status 1 performing no network calls; otherwise the Synthesizer runs
with the two positionals, the `--voice` value and the `--language` value. -/
theorem C4_dispatch (w : World) (args : Args) :
    (args.list_voices = true →
      mainDispatch w args = list_voices w args.language) ∧
    (args.list_voices = false →
      (truthy args.input_file = false ∨ truthy args.output_file = false) →
      mainDispatch w args = ⟨[Effect.printedHelp], 1⟩ ∧
      networkEffects (mainDispatch w args) = []) ∧
    (args.list_voices = false → truthy args.input_file = true →
      truthy args.output_file = true →
      mainDispatch w args =
        text_to_speech w (args.input_file.getD "") (args.output_file.getD "")
          args.voice args.language) := by
  refine ⟨?_, ?_, ?_⟩
  · intro h
    simp [mainDispatch, h]
  · intro h hm
    rcases hm with hm | hm <;>
      exact ⟨by simp [mainDispatch, h, hm], by simp [mainDispatch, h, hm, networkEffects]⟩
  · intro h hi ho
    simp [mainDispatch, h, hi, ho]

/-- Witness for the amended C4 on three concrete command lines. -/
theorem C4_dispatch_witness :
    mainDispatch okWorld listArgs = list_voices okWorld listArgs.language ∧
    (mainDispatch okWorld onePositionalArgs = ⟨[Effect.printedHelp], 1⟩ ∧
      networkEffects (mainDispatch okWorld onePositionalArgs) = []) ∧
    mainDispatch okWorld synthArgs =
      text_to_speech okWorld (synthArgs.input_file.getD "")
        (synthArgs.output_file.getD "") synthArgs.voice synthArgs.language :=
  ⟨(C4_dispatch okWorld listArgs).1 rfl,
   (C4_dispatch okWorld onePositionalArgs).2.1 rfl (Or.inr rfl),
   (C4_dispatch okWorld synthArgs).2.2 rfl (by decide) (by decide)⟩

/-- C7: when the client is constructed and the listing query returns a
sequence of voices, the Voice Lister prints, after the client and query
steps, exactly one record per voice in the order returned, each reporting
the name, comma-joined language codes, gender label and native sample rate,
and exits with status 0. -/
theorem C7_list_voices_records (w : World) (lc : String) (voices : List Voice)
    (hclient : w.clientOk = true)
    (hresp : w.listVoicesResp lc = Except.ok voices) :
    (list_voices w lc).effects =
      [Effect.clientConstructed, Effect.listQuery lc] ++
        (voices.map voiceRecordLines).flatten ∧
    (list_voices w lc).exitCode = 0 := by
  exact ⟨by simp [list_voices, hclient, hresp, printVoicesLoop_eq],
    by simp [list_voices, hclient, hresp]⟩

/-- Witness for C7 with a one-voice response. -/
theorem C7_list_voices_records_witness :
    (list_voices okWorld "en-US").effects =
      [Effect.clientConstructed, Effect.listQuery "en-US"] ++
        (([sampleVoice].map voiceRecordLines).flatten) ∧
    (list_voices okWorld "en-US").exitCode = 0 :=
  C7_list_voices_records okWorld "en-US" [sampleVoice] rfl rfl

end S2T
